import Mathlib

/-!
Shallow embedding of the tubely upload handlers:
  - src/src/api/videos.ts            (simple video upload handler)
  - src/unnamed/part_000             (thumbnail handlers: disk-backed and in-memory variants)
  - src/unnamed/part_001             (transcoding video upload handler, ffprobe/ffmpeg helpers)

External effects (record store, local file writes/deletes, S3 puts, the in-memory
thumbnail cache) are made explicit: each handler returns an `Outcome` that carries
the response (or thrown error), the resulting record store, and lists of the side
effects it performed.  Results of the external processes (ffprobe, ffmpeg) and of
the S3 client are passed in as parameters, since they are outside this codebase.
-/

namespace Tubely

/-- Modelled from the spec: a video record as held by the external record store
(src/db/videos.ts is not part of the sources): identifier, owning user identifier,
title, description, creation timestamp, nullable thumbnail URL, nullable video URL. -/
structure Video where
  id : String
  userID : String
  title : String
  description : String
  createdAt : String
  thumbnailURL : Option String
  videoURL : Option String
deriving Repr, DecidableEq

/-- Modelled from the spec: getVideo(db, id) returns the record with the given id,
or absent.  The store is embedded as a list of records searched by id. -/
def getVideo (db : List Video) (videoId : String) : Option Video :=
  db.find? (fun v => v.id == videoId)

/-- Modelled from the spec: updateVideo(db, record) persists the full record,
replacing the stored record with the same id. -/
def updateVideo (db : List Video) (v : Video) : List Video :=
  db.map (fun w => if w.id == v.id then v else w)

/-- Error values thrown by the handlers: BadRequestError, NotFoundError,
UserForbiddenError from ./errors, auth failures from getBearerToken/validateJWT,
plain Error (internal), and a JS TypeError from an undefined property access. -/
inductive ApiError where
  | badRequest (msg : String)
  | notFound (msg : String)
  | userForbidden (msg : String)
  | unauthenticated
  | jsError (msg : String)
  | jsTypeError
deriving Repr, DecidableEq

/-- Modelled from the spec: the shared error-translation layer maps each error kind
to a fixed HTTP status (invalid-request 400, unauthenticated 401, forbidden 403,
not-found 404, internal 500). -/
def errorStatus : ApiError → Nat
  | .badRequest _ => 400
  | .unauthenticated => 401
  | .userForbidden _ => 403
  | .notFound _ => 404
  | .jsError _ => 500
  | .jsTypeError => 500

/-- ApiConfig fields the handlers read: record store handle, JWT secret, asset
directory, HTTP port, S3 bucket and region.  The store is carried inline. -/
structure ApiConfig where
  db : List Video
  jwtSecret : String
  assetsRoot : String
  port : String
  s3Bucket : String
  s3Region : String
deriving Repr, DecidableEq

/-- A multipart form file field: declared size and declared media type
(content bytes are irrelevant to the handlers' control flow). -/
structure FilePart where
  size : Nat
  type : String
deriving Repr, DecidableEq

/-- An upload request: the videoId path parameter (absent encodes a missing
parameter), the outcome of getBearerToken/validateJWT (some userID on success,
none when either throws), and the form file field (none when the field is
absent or not a File). -/
structure UploadRequest where
  videoId : Option String
  auth : Option String
  formFile : Option FilePart
deriving Repr, DecidableEq

/-- One S3 write: cfg.s3Client.file(key).write(localFile, type). -/
structure S3Put where
  key : String
  localPath : String
  contentType : String
deriving Repr, DecidableEq

/-- Everything observable about one handler execution: the JSON response or the
thrown error, the record store afterwards, local file paths written and deleted,
S3 puts, in-memory thumbnail-cache insertions (videoId, mediaType), and the
records passed to updateVideo. -/
structure Outcome where
  result : Except ApiError (Nat × Option Video)
  db : List Video
  writes : List String
  deletes : List String
  s3Puts : List S3Put
  cacheSets : List (String × String)
  updates : List Video
deriving Repr

/-- Outcome of a handler that throws: the error, no deletions, no S3 puts, no
cache insertions, no record updates; the store is unchanged and the local writes
performed before the failure are kept. -/
def errOutcome (cfg : ApiConfig) (e : ApiError) (writes : List String) : Outcome :=
  { result := .error e, db := cfg.db, writes := writes, deletes := [],
    s3Puts := [], cacheSets := [], updates := [] }

/-- One byte as two lowercase hex characters. -/
def hexByte (b : Nat) : String :=
  String.mk [Nat.digitChar (b / 16 % 16), Nat.digitChar (b % 16)]

/-- Buffer.toString("hex"): each byte as two hex characters. -/
def hexEncode : List Nat → String
  | [] => ""
  | b :: bs => hexByte b ++ hexEncode bs

/-- The URL-safe base64 alphabet. -/
def base64urlAlphabet : List Char :=
  "ABCDEFGHIJKLMNOPQRSTUVWXYZabcdefghijklmnopqrstuvwxyz0123456789-_".toList

/-- Buffer.toString("base64url"): URL-safe base64, no padding. -/
def base64urlEncode : List Nat → String
  | [] => ""
  | [b1] =>
    String.mk [base64urlAlphabet.getD (b1 / 4) 'A',
               base64urlAlphabet.getD (b1 % 4 * 16) 'A']
  | [b1, b2] =>
    String.mk [base64urlAlphabet.getD (b1 / 4) 'A',
               base64urlAlphabet.getD (b1 % 4 * 16 + b2 / 16) 'A',
               base64urlAlphabet.getD (b2 % 16 * 4) 'A']
  | b1 :: b2 :: b3 :: rest =>
    String.mk [base64urlAlphabet.getD (b1 / 4) 'A',
               base64urlAlphabet.getD (b1 % 4 * 16 + b2 / 16) 'A',
               base64urlAlphabet.getD (b2 % 16 * 4 + b3 / 64) 'A',
               base64urlAlphabet.getD (b3 % 64) 'A'] ++ base64urlEncode rest

/-- Width/height of one probed stream as parsed from ffprobe JSON output; a
field can be absent. -/
structure StreamDims where
  width : Option Nat
  height : Option Nat
deriving Repr, DecidableEq

/-- The observable outcome of the ffprobe invocation: exit code, captured
standard error text, and the parsed streams array of the JSON on stdout. -/
structure ProbeResult where
  exitCode : Int
  errText : String
  streams : List StreamDims
deriving Repr, DecidableEq

/-- JS falsiness of a possibly-absent number: undefined and 0 are falsy. -/
def optFalsy : Option Nat → Bool
  | none => true
  | some n => n == 0

/-- The aspect-ratio switch of getVideoAspectRatio: width / height computed
exactly (in JS it is a double), then: ratio at least 1.7 gives landscape,
else ratio at most 0.6 gives portrait, else other. -/
def classifyAspect (width height : Nat) : String :=
  let aspectRatio : ℚ := (width : ℚ) / (height : ℚ)
  if aspectRatio ≥ 1.7 then "landscape"
  else if aspectRatio ≤ 0.6 then "portrait"
  else "other"

/-- getVideoAspectRatio of src/unnamed/part_001, with the ffprobe invocation
replaced by its observable `ProbeResult`.  Non-zero exit throws Error with the
captured stderr; an empty streams array makes output.streams[0].height a
property access on undefined, a TypeError; a falsy (absent or zero) height or
width throws the dimensions Error; otherwise the ratio is classified. -/
def getVideoAspectRatio (probe : ProbeResult) : Except ApiError String :=
  if probe.exitCode ≠ 0 then
    .error (.jsError ("Failed to get video info: " ++ probe.errText))
  else
    match probe.streams with
    | [] => .error .jsTypeError
    | s :: _ =>
      if optFalsy s.height || optFalsy s.width then
        .error (.jsError "Failed to get video dimensions")
      else
        .ok (classifyAspect (s.width.getD 0) (s.height.getD 0))

/-- processVideoForFastStart of src/unnamed/part_001, with the ffmpeg invocation
replaced by its exit code and captured stderr: non-zero exit throws, otherwise
the derived output path inputFilePath ++ ".processed" is returned. -/
def processVideoForFastStart (remuxExitCode : Int) (remuxErr : String)
    (inputFilePath : String) : Except ApiError String :=
  if remuxExitCode ≠ 0 then
    .error (.jsError ("Failed to process video: " ++ remuxErr))
  else
    .ok (inputFilePath ++ ".processed")

/-- MAX_UPLOAD_SIZE of src/unnamed/part_000: 10 << 20 bytes (10 MiB). -/
def MAX_UPLOAD_SIZE_THUMB : Nat := 10 * 2 ^ 20

/-- MAX_UPLOAD_SIZE of src/src/api/videos.ts and src/unnamed/part_001:
1 << 30 bytes (1 GiB). -/
def MAX_UPLOAD_SIZE_VIDEO : Nat := 2 ^ 30

/-- Splitting a character list at a separator, JS String.split style: the
separator is dropped and empty segments are kept. -/
def splitChars (sep : Char) : List Char → List (List Char)
  | [] => [[]]
  | c :: cs =>
    if c = sep then [] :: splitChars sep cs
    else
      match splitChars sep cs with
      | [] => [[c]]
      | g :: gs => (c :: g) :: gs

/-- JS s.split(sep) for a one-character separator. -/
def jsSplit (s : String) (sep : Char) : List String :=
  (splitChars sep s.data).map String.mk

/-- handlerUploadThumbnail, disk-backed variant (src/unnamed/part_000, first
definition).  Control flow in source order: falsy videoId, auth, form field,
size cap, media-type allow-list, record lookup, ownership, then write the file
under base64url(32 random bytes).subtype inside assetsRoot, persist the
hardcoded localhost:8091 asset URL, and respond with the re-read record.
The 32 random bytes are passed in as `randBytes`. -/
def handlerUploadThumbnail (cfg : ApiConfig) (req : UploadRequest)
    (randBytes : List Nat) : Outcome :=
  match req.videoId with
  | none => errOutcome cfg (.badRequest "Invalid video ID") []
  | some videoId =>
  if videoId = "" then errOutcome cfg (.badRequest "Invalid video ID") [] else
  match req.auth with
  | none => errOutcome cfg .unauthenticated []
  | some userID =>
  match req.formFile with
  | none => errOutcome cfg (.badRequest "Thumbnail file missing") []
  | some thumbnail =>
  if thumbnail.size > MAX_UPLOAD_SIZE_THUMB then
    errOutcome cfg (.badRequest "File too large") [] else
  if ¬ (["image/png", "image/jpeg"].contains thumbnail.type) then
    errOutcome cfg (.badRequest ("Unsupported file type: " ++ thumbnail.type)) [] else
  let mediaSubtype := (jsSplit thumbnail.type '/').getD 1 "undefined"
  match getVideo cfg.db videoId with
  | none => errOutcome cfg (.notFound "Video not found") []
  | some video =>
  if video.userID ≠ userID then errOutcome cfg (.userForbidden "Forbidden") [] else
  let fileName := base64urlEncode randBytes
  let filePath := cfg.assetsRoot ++ "/" ++ fileName ++ "." ++ mediaSubtype
  let thumbnailUrl := "http://localhost:8091/assets/" ++ fileName ++ "." ++ mediaSubtype
  let video' := { video with thumbnailURL := some thumbnailUrl }
  let db' := updateVideo cfg.db video'
  { result := .ok (200, getVideo db' video.id), db := db', writes := [filePath],
    deletes := [], s3Puts := [], cacheSets := [], updates := [video'] }

/-- handlerUploadThumbnail, in-memory variant (src/unnamed/part_000, second
definition).  Same flow but no media-type check; stores the bytes in the
process-wide map keyed by video id and persists the /api/thumbnails URL built
from the configured port. -/
def handlerUploadThumbnailMem (cfg : ApiConfig) (req : UploadRequest) : Outcome :=
  match req.videoId with
  | none => errOutcome cfg (.badRequest "Invalid video ID") []
  | some videoId =>
  if videoId = "" then errOutcome cfg (.badRequest "Invalid video ID") [] else
  match req.auth with
  | none => errOutcome cfg .unauthenticated []
  | some userID =>
  match req.formFile with
  | none => errOutcome cfg (.badRequest "Thumbnail file missing") []
  | some thumbnail =>
  if thumbnail.size > MAX_UPLOAD_SIZE_THUMB then
    errOutcome cfg (.badRequest "File too large") [] else
  match getVideo cfg.db videoId with
  | none => errOutcome cfg (.notFound "Video not found") []
  | some video =>
  if video.userID ≠ userID then errOutcome cfg (.userForbidden "Forbidden") [] else
  let thumbnailUrl := "http://localhost:" ++ cfg.port ++ "/api/thumbnails/" ++ video.id
  let video' := { video with thumbnailURL := some thumbnailUrl }
  let db' := updateVideo cfg.db video'
  { result := .ok (200, getVideo db' video.id), db := db', writes := [],
    deletes := [], s3Puts := [], cacheSets := [(video.id, thumbnail.type)],
    updates := [video'] }

/-- handlerUploadVideo of src/src/api/videos.ts (simple variant, no transcode).
Source order: falsy videoId, auth, record lookup (miss throws
BadRequestError "Video not found"), ownership, form field, size cap, exact
"video/mp4" type, write hex(32 random bytes).mp4 locally, S3 put under the bare
file name (`s3Ok` is the S3 client call outcome), delete the local file, persist
the bucket/region URL, respond with the re-read record. -/
def handlerUploadVideoSimple (cfg : ApiConfig) (req : UploadRequest)
    (randBytes : List Nat) (s3Ok : Bool) : Outcome :=
  match req.videoId with
  | none => errOutcome cfg (.badRequest "Invalid video ID") []
  | some videoId =>
  if videoId = "" then errOutcome cfg (.badRequest "Invalid video ID") [] else
  match req.auth with
  | none => errOutcome cfg .unauthenticated []
  | some userID =>
  match getVideo cfg.db videoId with
  | none => errOutcome cfg (.badRequest "Video not found") []
  | some video =>
  if video.userID ≠ userID then errOutcome cfg (.userForbidden "Forbidden") [] else
  match req.formFile with
  | none => errOutcome cfg (.badRequest "Video file missing") []
  | some videoFile =>
  if videoFile.size > MAX_UPLOAD_SIZE_VIDEO then
    errOutcome cfg (.badRequest "File too large") [] else
  if videoFile.type ≠ "video/mp4" then
    errOutcome cfg (.badRequest "Unsupported file type") [] else
  let fileName := hexEncode randBytes ++ ".mp4"
  let filePath := cfg.assetsRoot ++ "/" ++ fileName
  if ¬ s3Ok then
    { errOutcome cfg (.jsError "S3 upload failed") [filePath] with writes := [filePath] } else
  let videoURL := "https://" ++ cfg.s3Bucket ++ ".s3." ++ cfg.s3Region ++
    ".amazonaws.com/" ++ fileName
  let video' := { video with videoURL := some videoURL }
  let db' := updateVideo cfg.db video'
  { result := .ok (200, getVideo db' videoId), db := db', writes := [filePath],
    deletes := [filePath], s3Puts := [⟨fileName, filePath, videoFile.type⟩],
    cacheSets := [], updates := [video'] }

/-- handlerUploadVideo of src/unnamed/part_001 (transcoding variant).  Same
validation prefix as the simple variant, then: write hex(32 random bytes).mp4
locally, probe it (getVideoAspectRatio over the ffprobe outcome `probe`), remux
it (processVideoForFastStart over the ffmpeg outcome), S3 put of the processed
file under key aspectRatio/fileName, delete both local files, persist the
bucket/region URL built from the same key, respond with the re-read record. -/
def handlerUploadVideo (cfg : ApiConfig) (req : UploadRequest)
    (randBytes : List Nat) (probe : ProbeResult) (remuxExitCode : Int)
    (remuxErr : String) (s3Ok : Bool) : Outcome :=
  match req.videoId with
  | none => errOutcome cfg (.badRequest "Invalid video ID") []
  | some videoId =>
  if videoId = "" then errOutcome cfg (.badRequest "Invalid video ID") [] else
  match req.auth with
  | none => errOutcome cfg .unauthenticated []
  | some userID =>
  match getVideo cfg.db videoId with
  | none => errOutcome cfg (.badRequest "Video not found") []
  | some video =>
  if video.userID ≠ userID then errOutcome cfg (.userForbidden "Forbidden") [] else
  match req.formFile with
  | none => errOutcome cfg (.badRequest "Video file missing") []
  | some videoFile =>
  if videoFile.size > MAX_UPLOAD_SIZE_VIDEO then
    errOutcome cfg (.badRequest "File too large") [] else
  if videoFile.type ≠ "video/mp4" then
    errOutcome cfg (.badRequest "Unsupported file type") [] else
  let fileName := hexEncode randBytes ++ ".mp4"
  let filePath := cfg.assetsRoot ++ "/" ++ fileName
  match getVideoAspectRatio probe with
  | .error e => { errOutcome cfg e [filePath] with writes := [filePath] }
  | .ok aspectRatio =>
  match processVideoForFastStart remuxExitCode remuxErr filePath with
  | .error e => { errOutcome cfg e [filePath] with writes := [filePath] }
  | .ok processedFilePath =>
  if ¬ s3Ok then
    { errOutcome cfg (.jsError "S3 upload failed") [filePath, processedFilePath] with
      writes := [filePath, processedFilePath] } else
  let key := aspectRatio ++ "/" ++ fileName
  let videoURL := "https://" ++ cfg.s3Bucket ++ ".s3." ++ cfg.s3Region ++
    ".amazonaws.com/" ++ key
  let video' := { video with videoURL := some videoURL }
  let db' := updateVideo cfg.db video'
  { result := .ok (200, getVideo db' videoId), db := db',
    writes := [filePath, processedFilePath],
    deletes := [filePath, processedFilePath],
    s3Puts := [⟨key, processedFilePath, videoFile.type⟩],
    cacheSets := [], updates := [video'] }

/-- The aspect-ratio comparisons on exact rationals, characterised over the
naturals: for a nonzero height, w / h is at least 17/10 iff 17h is at most 10w,
and at most 6/10 iff 10w is at most 6h. -/
theorem classifyAspect_spec (w h : Nat) (hh : 0 < h) :
    classifyAspect w h =
      if 17 * h ≤ 10 * w then "landscape"
      else if 10 * w ≤ 6 * h then "portrait"
      else "other" := by
  unfold classifyAspect
  have hq : (0:ℚ) < (h:ℚ) := by exact_mod_cast hh
  have h1 : ((w:ℚ)/(h:ℚ) ≥ 1.7) ↔ 17 * h ≤ 10 * w := by
    rw [ge_iff_le, le_div_iff₀ hq]
    constructor
    · intro hx
      have hx' : (17:ℚ) * h ≤ 10 * w := by
        norm_num at hx ⊢
        linarith
      exact_mod_cast hx'
    · intro hx
      have hx' : (17:ℚ) * h ≤ 10 * w := by exact_mod_cast hx
      norm_num
      linarith
  have h2 : ((w:ℚ)/(h:ℚ) ≤ 0.6) ↔ 10 * w ≤ 6 * h := by
    rw [div_le_iff₀ hq]
    constructor
    · intro hx
      have hx' : (10:ℚ) * w ≤ 6 * h := by
        norm_num at hx ⊢
        linarith
      exact_mod_cast hx'
    · intro hx
      have hx' : (10:ℚ) * w ≤ 6 * h := by exact_mod_cast hx
      norm_num
      linarith
  simp only [h1, h2]

/-- A record returned by getVideo carries the id it was looked up under. -/
theorem getVideo_id_eq (db : List Video) (vid : String) (v : Video)
    (hv : getVideo db vid = some v) : v.id = vid := by
  unfold getVideo at hv
  have h := List.find?_some hv
  simpa using h

/-- Re-reading a record after updateVideo with a record of the same id returns
the updated record. -/
theorem getVideo_updateVideo (db : List Video) (vid : String) (v v' : Video)
    (hv : getVideo db vid = some v) (hid : v'.id = v.id) :
    getVideo (updateVideo db v') vid = some v' := by
  have hveq : v.id = vid := getVideo_id_eq db vid v hv
  unfold getVideo updateVideo at *
  induction db with
  | nil => simp at hv
  | cons w ws ih =>
    by_cases hw : w.id = vid
    · rw [List.find?_cons_of_pos _ (by simpa using hw)] at hv
      have hwv : w = v := by injection hv
      subst hwv
      simp only [List.map_cons]
      rw [if_pos (by simp [hid])]
      exact List.find?_cons_of_pos _ (by simp [hid, hveq])
    · rw [List.find?_cons_of_neg _ (by simpa using hw)] at hv
      simp only [List.map_cons]
      rw [if_neg (by simp only [hid, hveq, beq_iff_eq]; exact hw)]
      rw [List.find?_cons_of_neg _ (by simpa using hw)]
      exact ih hv

/-- The thumbnail type-check message never collides with the size-cap message. -/
theorem unsupported_msg_ne (t : String) :
    "Unsupported file type: " ++ t ≠ "File too large" := by
  intro hcon
  have hl := congrArg String.length hcon
  rw [String.length_append] at hl
  have h23 : ("Unsupported file type: ").length = 23 := rfl
  have h14 : ("File too large").length = 14 := rfl
  omega

/-- C1: only the owner mutates a record.  In each upload handler (thumbnail
disk and in-memory variants, video simple and transcoding variants), whenever
the request is authenticated as a user distinct from the looked-up record's
owner, updateVideo is never invoked and the store is unchanged; and when such a
request carries an otherwise valid file, the handler throws the Forbidden
error. -/
theorem claim1_owner_only_mutation :
    (∀ (cfg : ApiConfig) (vid u : String) (ofile : Option FilePart)
        (bytes : List Nat) (v : Video),
      getVideo cfg.db vid = some v → u ≠ v.userID →
      (handlerUploadThumbnail cfg ⟨some vid, some u, ofile⟩ bytes).updates = [] ∧
      (handlerUploadThumbnail cfg ⟨some vid, some u, ofile⟩ bytes).db = cfg.db) ∧
    (∀ (cfg : ApiConfig) (vid u : String) (f : FilePart) (bytes : List Nat) (v : Video),
      vid ≠ "" → getVideo cfg.db vid = some v → u ≠ v.userID →
      f.size ≤ MAX_UPLOAD_SIZE_THUMB → f.type ∈ ["image/png", "image/jpeg"] →
      (handlerUploadThumbnail cfg ⟨some vid, some u, some f⟩ bytes).result =
        .error (.userForbidden "Forbidden")) ∧
    (∀ (cfg : ApiConfig) (vid u : String) (ofile : Option FilePart) (v : Video),
      getVideo cfg.db vid = some v → u ≠ v.userID →
      (handlerUploadThumbnailMem cfg ⟨some vid, some u, ofile⟩).updates = [] ∧
      (handlerUploadThumbnailMem cfg ⟨some vid, some u, ofile⟩).db = cfg.db) ∧
    (∀ (cfg : ApiConfig) (vid u : String) (f : FilePart) (v : Video),
      vid ≠ "" → getVideo cfg.db vid = some v → u ≠ v.userID →
      f.size ≤ MAX_UPLOAD_SIZE_THUMB →
      (handlerUploadThumbnailMem cfg ⟨some vid, some u, some f⟩).result =
        .error (.userForbidden "Forbidden")) ∧
    (∀ (cfg : ApiConfig) (vid u : String) (ofile : Option FilePart)
        (bytes : List Nat) (s3Ok : Bool) (v : Video),
      getVideo cfg.db vid = some v → u ≠ v.userID →
      (handlerUploadVideoSimple cfg ⟨some vid, some u, ofile⟩ bytes s3Ok).updates = [] ∧
      (handlerUploadVideoSimple cfg ⟨some vid, some u, ofile⟩ bytes s3Ok).db = cfg.db) ∧
    (∀ (cfg : ApiConfig) (vid u : String) (ofile : Option FilePart)
        (bytes : List Nat) (s3Ok : Bool) (v : Video),
      vid ≠ "" → getVideo cfg.db vid = some v → u ≠ v.userID →
      (handlerUploadVideoSimple cfg ⟨some vid, some u, ofile⟩ bytes s3Ok).result =
        .error (.userForbidden "Forbidden")) ∧
    (∀ (cfg : ApiConfig) (vid u : String) (ofile : Option FilePart)
        (bytes : List Nat) (probe : ProbeResult) (rex : Int) (rerr : String)
        (s3Ok : Bool) (v : Video),
      getVideo cfg.db vid = some v → u ≠ v.userID →
      (handlerUploadVideo cfg ⟨some vid, some u, ofile⟩ bytes probe rex rerr s3Ok).updates = [] ∧
      (handlerUploadVideo cfg ⟨some vid, some u, ofile⟩ bytes probe rex rerr s3Ok).db = cfg.db) ∧
    (∀ (cfg : ApiConfig) (vid u : String) (ofile : Option FilePart)
        (bytes : List Nat) (probe : ProbeResult) (rex : Int) (rerr : String)
        (s3Ok : Bool) (v : Video),
      vid ≠ "" → getVideo cfg.db vid = some v → u ≠ v.userID →
      (handlerUploadVideo cfg ⟨some vid, some u, ofile⟩ bytes probe rex rerr s3Ok).result =
        .error (.userForbidden "Forbidden")) := by
  refine ⟨?_, ?_, ?_, ?_, ?_, ?_, ?_, ?_⟩
  · intro cfg vid u ofile bytes v hv hu
    unfold handlerUploadThumbnail
    dsimp only
    repeat' split
    all_goals simp_all [errOutcome]
  · intro cfg vid u f bytes v hvid hv hu hsz hty
    unfold handlerUploadThumbnail
    dsimp only
    rw [if_neg hvid, if_neg (by omega), if_neg (by simp_all), hv]
    dsimp only
    rw [if_pos (Ne.symm hu)]
    rfl
  · intro cfg vid u ofile v hv hu
    unfold handlerUploadThumbnailMem
    dsimp only
    repeat' split
    all_goals simp_all [errOutcome]
  · intro cfg vid u f v hvid hv hu hsz
    unfold handlerUploadThumbnailMem
    dsimp only
    rw [if_neg hvid, if_neg (by omega), hv]
    dsimp only
    rw [if_pos (Ne.symm hu)]
    rfl
  · intro cfg vid u ofile bytes s3Ok v hv hu
    unfold handlerUploadVideoSimple
    dsimp only
    repeat' split
    all_goals simp_all [errOutcome]
  · intro cfg vid u ofile bytes s3Ok v hvid hv hu
    unfold handlerUploadVideoSimple
    dsimp only
    rw [if_neg hvid, hv]
    dsimp only
    rw [if_pos (Ne.symm hu)]
    rfl
  · intro cfg vid u ofile bytes probe rex rerr s3Ok v hv hu
    unfold handlerUploadVideo
    dsimp only
    repeat' split
    all_goals simp_all [errOutcome]
  · intro cfg vid u ofile bytes probe rex rerr s3Ok v hvid hv hu
    unfold handlerUploadVideo
    dsimp only
    rw [if_neg hvid, hv]
    dsimp only
    rw [if_pos (Ne.symm hu)]
    rfl


/-- Unfolding of classifyAspect with the let inlined. -/
theorem classifyAspect_def (w h : Nat) :
    classifyAspect w h =
      if (w:ℚ)/(h:ℚ) ≥ 1.7 then "landscape"
      else if (w:ℚ)/(h:ℚ) ≤ 0.6 then "portrait"
      else "other" := rfl

/-- C2: aspect-ratio classification is a pure function of the probed
width and height: on a zero-exit probe whose first stream carries nonzero
dimensions, getVideoAspectRatio returns exactly the classification of
(width, height); the classification is landscape iff width/height is at
least 1.7, portrait iff it is at most 0.6 (both boundaries inclusive, as the
exact boundary pairs (17,10) and (6,10) show), other exactly otherwise; and
(1920,1080) is landscape, (1080,1920) portrait, (1000,950) other. -/
theorem claim2_aspect_ratio :
    (∀ (w h : Nat) (rest : List StreamDims) (et : String), 0 < w → 0 < h →
      getVideoAspectRatio ⟨0, et, ⟨some w, some h⟩ :: rest⟩ =
        .ok (classifyAspect w h)) ∧
    (∀ w h : Nat, 0 < h →
      ((classifyAspect w h = "landscape" ↔ (w:ℚ)/(h:ℚ) ≥ 1.7) ∧
       (classifyAspect w h = "portrait" ↔ (w:ℚ)/(h:ℚ) ≤ 0.6) ∧
       (classifyAspect w h = "other" ↔
         (¬((w:ℚ)/(h:ℚ) ≥ 1.7) ∧ ¬((w:ℚ)/(h:ℚ) ≤ 0.6))))) ∧
    classifyAspect 1920 1080 = "landscape" ∧
    classifyAspect 1080 1920 = "portrait" ∧
    classifyAspect 1000 950 = "other" ∧
    classifyAspect 17 10 = "landscape" ∧
    classifyAspect 6 10 = "portrait" := by
  refine ⟨?_, ?_, ?_, ?_, ?_, ?_, ?_⟩
  · intro w h rest et hw hh
    simp [getVideoAspectRatio, optFalsy, hw.ne', hh.ne']
  · intro w h hh
    have hlt : ¬((w:ℚ)/(h:ℚ) ≥ 1.7 ∧ (w:ℚ)/(h:ℚ) ≤ 0.6) := by
      rintro ⟨h1, h2⟩
      norm_num at h1 h2
      linarith
    rw [classifyAspect_def]
    refine ⟨?_, ?_, ?_⟩
    · split_ifs with h1 h2 <;> simp_all
    · split_ifs with h1 h2 <;> simp_all
    · split_ifs with h1 h2 <;> simp_all
  · rw [classifyAspect_spec 1920 1080 (by norm_num)]; decide
  · rw [classifyAspect_spec 1080 1920 (by norm_num)]; decide
  · rw [classifyAspect_spec 1000 950 (by norm_num)]; decide
  · rw [classifyAspect_spec 17 10 (by norm_num)]; decide
  · rw [classifyAspect_spec 6 10 (by norm_num)]; decide

/-- C2 witness: the generic conjuncts instantiated at the probed pair
(1920, 1080). -/
theorem claim2_aspect_ratio_witness :
    getVideoAspectRatio ⟨0, "", [⟨some 1920, some 1080⟩]⟩ =
      .ok (classifyAspect 1920 1080) ∧
    (classifyAspect 1920 1080 = "landscape" ↔ (1920:ℚ)/(1080:ℚ) ≥ 1.7) :=
  ⟨claim2_aspect_ratio.1 1920 1080 [] "" (by norm_num) (by norm_num),
   by
    have h := (claim2_aspect_ratio.2.1 1920 1080 (by norm_num)).1
    exact_mod_cast h⟩


/-- C1 witness: a concrete request authenticated as u2 against a record owned
by u1, with a valid 100-byte PNG, is rejected as Forbidden. -/
theorem claim1_owner_only_mutation_witness :
    (handlerUploadThumbnail
      ⟨[⟨"v1", "u1", "t", "d", "c", none, none⟩], "sec", "assets", "8091", "bkt", "reg"⟩
      ⟨some "v1", some "u2", some ⟨100, "image/png"⟩⟩ []).result =
      .error (.userForbidden "Forbidden") :=
  claim1_owner_only_mutation.2.1 _ "v1" "u2" ⟨100, "image/png"⟩ []
    ⟨"v1", "u1", "t", "d", "c", none, none⟩
    (by decide) (by rfl) (by decide) (by decide) (by decide)

/-- C3 counterexample: with a valid bearer token and a video id absent from the
store, the video upload handlers throw BadRequestError "Video not found" (an
invalid-request error, status 400, not a not-found error), and the disk
thumbnail handler reports the missing form field (status 400) before ever
looking the record up, so an unknown id does not yield not-found there
regardless of form contents. -/
theorem claim3_counterexample :
    (handlerUploadVideoSimple ⟨[], "sec", "assets", "8091", "bkt", "reg"⟩
      ⟨some "v1", some "u1", some ⟨100, "video/mp4"⟩⟩ [] true).result =
      .error (.badRequest "Video not found") ∧
    (handlerUploadVideo ⟨[], "sec", "assets", "8091", "bkt", "reg"⟩
      ⟨some "v1", some "u1", some ⟨100, "video/mp4"⟩⟩ [] ⟨0, "", []⟩ 0 "" true).result =
      .error (.badRequest "Video not found") ∧
    errorStatus (.badRequest "Video not found") = 400 ∧
    errorStatus (.notFound "Video not found") = 404 ∧
    (handlerUploadThumbnail ⟨[], "sec", "assets", "8091", "bkt", "reg"⟩
      ⟨some "v1", some "u1", none⟩ []).result =
      .error (.badRequest "Thumbnail file missing") :=
  ⟨rfl, rfl, rfl, rfl, rfl⟩

/-- C3 amended: in both video handlers an unknown video id throws
BadRequestError "Video not found" (an invalid-request error, not not-found);
in the thumbnail handlers the record lookup follows form-field, size (and, in
the disk variant, media-type) validation, so an unknown id yields the
NotFoundError only once the form contents are valid, while a missing form file
yields invalid-request for any store contents. -/
theorem claim3_amended :
    (∀ (cfg : ApiConfig) (vid u : String) (ofile : Option FilePart)
        (bytes : List Nat) (s3Ok : Bool),
      vid ≠ "" → getVideo cfg.db vid = none →
      (handlerUploadVideoSimple cfg ⟨some vid, some u, ofile⟩ bytes s3Ok).result =
        .error (.badRequest "Video not found")) ∧
    (∀ (cfg : ApiConfig) (vid u : String) (ofile : Option FilePart)
        (bytes : List Nat) (probe : ProbeResult) (rex : Int) (rerr : String)
        (s3Ok : Bool),
      vid ≠ "" → getVideo cfg.db vid = none →
      (handlerUploadVideo cfg ⟨some vid, some u, ofile⟩ bytes probe rex rerr s3Ok).result =
        .error (.badRequest "Video not found")) ∧
    (∀ (cfg : ApiConfig) (vid u : String) (f : FilePart) (bytes : List Nat),
      vid ≠ "" → f.size ≤ MAX_UPLOAD_SIZE_THUMB →
      f.type ∈ ["image/png", "image/jpeg"] → getVideo cfg.db vid = none →
      (handlerUploadThumbnail cfg ⟨some vid, some u, some f⟩ bytes).result =
        .error (.notFound "Video not found")) ∧
    (∀ (cfg : ApiConfig) (vid u : String) (bytes : List Nat),
      vid ≠ "" →
      (handlerUploadThumbnail cfg ⟨some vid, some u, none⟩ bytes).result =
        .error (.badRequest "Thumbnail file missing")) ∧
    (∀ (cfg : ApiConfig) (vid u : String) (f : FilePart),
      vid ≠ "" → f.size ≤ MAX_UPLOAD_SIZE_THUMB → getVideo cfg.db vid = none →
      (handlerUploadThumbnailMem cfg ⟨some vid, some u, some f⟩).result =
        .error (.notFound "Video not found")) := by
  refine ⟨?_, ?_, ?_, ?_, ?_⟩
  · intro cfg vid u ofile bytes s3Ok hvid hmiss
    unfold handlerUploadVideoSimple
    dsimp only
    rw [if_neg hvid, hmiss]
    rfl
  · intro cfg vid u ofile bytes probe rex rerr s3Ok hvid hmiss
    unfold handlerUploadVideo
    dsimp only
    rw [if_neg hvid, hmiss]
    rfl
  · intro cfg vid u f bytes hvid hsz hty hmiss
    unfold handlerUploadThumbnail
    dsimp only
    rw [if_neg hvid, if_neg (by omega), if_neg (by simp_all), hmiss]
    rfl
  · intro cfg vid u bytes hvid
    unfold handlerUploadThumbnail
    dsimp only
    rw [if_neg hvid]
    rfl
  · intro cfg vid u f hvid hsz hmiss
    unfold handlerUploadThumbnailMem
    dsimp only
    rw [if_neg hvid, if_neg (by omega), hmiss]
    rfl

/-- C3 amended witness: the amended statement instantiated on an empty store:
video handler 400 "Video not found", thumbnail handler 404 once the form is
valid. -/
theorem claim3_amended_witness :
    (handlerUploadVideoSimple ⟨[], "sec", "assets", "8091", "bkt", "reg"⟩
      ⟨some "v1", some "u1", some ⟨100, "video/mp4"⟩⟩ [] true).result =
      .error (.badRequest "Video not found") ∧
    (handlerUploadThumbnail ⟨[], "sec", "assets", "8091", "bkt", "reg"⟩
      ⟨some "v1", some "u1", some ⟨100, "image/png"⟩⟩ []).result =
      .error (.notFound "Video not found") :=
  ⟨claim3_amended.1 _ "v1" "u1" (some ⟨100, "video/mp4"⟩) [] true (by decide) rfl,
   claim3_amended.2.2.1 _ "v1" "u1" ⟨100, "image/png"⟩ []
     (by decide) (by decide) (by decide) rfl⟩


/-- C4: media-type validation.  In both video handlers, once id, auth, lookup,
ownership, file presence and size have passed, any declared type other than
exactly "video/mp4" throws the invalid-request error, whatever the file
content; in the disk thumbnail variant, once id, auth, presence and size have
passed, a declared type outside the allow-list image/png, image/jpeg throws
invalid-request (before the lookup, so for any store contents); the in-memory
variant has no type check and succeeds for any declared type once the other
checks pass. -/
theorem claim4_media_type :
    (∀ (cfg : ApiConfig) (vid u : String) (f : FilePart) (bytes : List Nat)
        (s3Ok : Bool) (v : Video),
      vid ≠ "" → getVideo cfg.db vid = some v → v.userID = u →
      f.size ≤ MAX_UPLOAD_SIZE_VIDEO → f.type ≠ "video/mp4" →
      (handlerUploadVideoSimple cfg ⟨some vid, some u, some f⟩ bytes s3Ok).result =
        .error (.badRequest "Unsupported file type")) ∧
    (∀ (cfg : ApiConfig) (vid u : String) (f : FilePart) (bytes : List Nat)
        (probe : ProbeResult) (rex : Int) (rerr : String) (s3Ok : Bool) (v : Video),
      vid ≠ "" → getVideo cfg.db vid = some v → v.userID = u →
      f.size ≤ MAX_UPLOAD_SIZE_VIDEO → f.type ≠ "video/mp4" →
      (handlerUploadVideo cfg ⟨some vid, some u, some f⟩ bytes probe rex rerr s3Ok).result =
        .error (.badRequest "Unsupported file type")) ∧
    (∀ (cfg : ApiConfig) (vid u : String) (f : FilePart) (bytes : List Nat),
      vid ≠ "" → f.size ≤ MAX_UPLOAD_SIZE_THUMB →
      f.type ∉ ["image/png", "image/jpeg"] →
      (handlerUploadThumbnail cfg ⟨some vid, some u, some f⟩ bytes).result =
        .error (.badRequest ("Unsupported file type: " ++ f.type))) ∧
    (∀ (cfg : ApiConfig) (vid u : String) (f : FilePart) (v : Video),
      vid ≠ "" → f.size ≤ MAX_UPLOAD_SIZE_THUMB →
      getVideo cfg.db vid = some v → v.userID = u →
      ∃ p, (handlerUploadThumbnailMem cfg ⟨some vid, some u, some f⟩).result = .ok p) := by
  refine ⟨?_, ?_, ?_, ?_⟩
  · intro cfg vid u f bytes s3Ok v hvid hv hvu hsz hty
    unfold handlerUploadVideoSimple
    dsimp only
    rw [if_neg hvid, hv]
    dsimp only
    rw [if_neg (by simp [hvu]), if_neg (by omega), if_pos hty]
    rfl
  · intro cfg vid u f bytes probe rex rerr s3Ok v hvid hv hvu hsz hty
    unfold handlerUploadVideo
    dsimp only
    rw [if_neg hvid, hv]
    dsimp only
    rw [if_neg (by simp [hvu]), if_neg (by omega), if_pos hty]
    rfl
  · intro cfg vid u f bytes hvid hsz hty
    unfold handlerUploadThumbnail
    dsimp only
    rw [if_neg hvid, if_neg (by omega), if_pos (by simp_all)]
    rfl
  · intro cfg vid u f v hvid hsz hv hvu
    unfold handlerUploadThumbnailMem
    dsimp only
    rw [if_neg hvid, if_neg (by omega), hv]
    dsimp only
    rw [if_neg (by simp [hvu])]
    exact ⟨_, rfl⟩

/-- C4 witness: a GIF is rejected by the video handler and by the disk
thumbnail handler, and accepted by the in-memory thumbnail handler. -/
theorem claim4_media_type_witness :
    (handlerUploadVideoSimple
      ⟨[⟨"v1", "u1", "t", "d", "c", none, none⟩], "sec", "assets", "8091", "bkt", "reg"⟩
      ⟨some "v1", some "u1", some ⟨100, "image/gif"⟩⟩ [] true).result =
      .error (.badRequest "Unsupported file type") ∧
    (handlerUploadThumbnail
      ⟨[⟨"v1", "u1", "t", "d", "c", none, none⟩], "sec", "assets", "8091", "bkt", "reg"⟩
      ⟨some "v1", some "u1", some ⟨100, "image/gif"⟩⟩ []).result =
      .error (.badRequest ("Unsupported file type: " ++ "image/gif")) ∧
    ∃ p, (handlerUploadThumbnailMem
      ⟨[⟨"v1", "u1", "t", "d", "c", none, none⟩], "sec", "assets", "8091", "bkt", "reg"⟩
      ⟨some "v1", some "u1", some ⟨100, "image/gif"⟩⟩).result = .ok p :=
  ⟨claim4_media_type.1 _ "v1" "u1" ⟨100, "image/gif"⟩ [] true
      ⟨"v1", "u1", "t", "d", "c", none, none⟩
      (by decide) rfl rfl (by decide) (by decide),
   claim4_media_type.2.2.1 _ "v1" "u1" ⟨100, "image/gif"⟩ []
      (by decide) (by decide) (by decide),
   claim4_media_type.2.2.2 _ "v1" "u1" ⟨100, "image/gif"⟩
      ⟨"v1", "u1", "t", "d", "c", none, none⟩
      (by decide) (by decide) rfl rfl⟩

/-- The probe step only ever throws plain Error or TypeError values, never a
BadRequestError. -/
theorem getVideoAspectRatio_not_badRequest (probe : ProbeResult) (m : String) :
    getVideoAspectRatio probe ≠ .error (.badRequest m) := by
  unfold getVideoAspectRatio
  intro h
  repeat' split at h
  all_goals simp_all

/-- The remux step only ever throws a plain Error value, never a
BadRequestError. -/
theorem processVideoForFastStart_not_badRequest (rex : Int) (rerr p m : String) :
    processVideoForFastStart rex rerr p ≠ .error (.badRequest m) := by
  unfold processVideoForFastStart
  intro h
  split at h
  all_goals simp_all

/-- C5 counterexample: a 100-byte thumbnail whose declared type is image/gif
passes every check before the size check and its size is far below the cap,
yet the handler still fails with an invalid-request error (the media-type
one) — so the handler failing with invalid-request is not equivalent to the
size exceeding the cap. -/
theorem claim5_counterexample :
    (handlerUploadThumbnail ⟨[], "sec", "assets", "8091", "bkt", "reg"⟩
      ⟨some "v1", some "u1", some ⟨100, "image/gif"⟩⟩ []).result =
      .error (.badRequest ("Unsupported file type: " ++ "image/gif")) ∧
    (100 : Nat) ≤ MAX_UPLOAD_SIZE_THUMB ∧
    errorStatus (.badRequest ("Unsupported file type: " ++ "image/gif")) = 400 :=
  ⟨rfl, by decide, rfl⟩

/-- C5 amended: size caps are strict and exact.  With the checks before the
size check satisfied and a file attached, each handler fails with the size
invalid-request error ("File too large") exactly when the file size exceeds
its cap — the caps being 10 * 2^20 bytes (thumbnails) and 2^30 bytes
(videos) — so an upload whose size equals the cap exactly is never rejected
for size, though it may still fail a later check such as media type. -/
theorem claim5_size_caps :
    MAX_UPLOAD_SIZE_THUMB = 10 * 2 ^ 20 ∧
    MAX_UPLOAD_SIZE_VIDEO = 2 ^ 30 ∧
    (∀ (cfg : ApiConfig) (vid u : String) (f : FilePart) (bytes : List Nat),
      vid ≠ "" →
      ((handlerUploadThumbnail cfg ⟨some vid, some u, some f⟩ bytes).result =
        .error (.badRequest "File too large") ↔ f.size > MAX_UPLOAD_SIZE_THUMB)) ∧
    (∀ (cfg : ApiConfig) (vid u : String) (f : FilePart),
      vid ≠ "" →
      ((handlerUploadThumbnailMem cfg ⟨some vid, some u, some f⟩).result =
        .error (.badRequest "File too large") ↔ f.size > MAX_UPLOAD_SIZE_THUMB)) ∧
    (∀ (cfg : ApiConfig) (vid u : String) (f : FilePart) (bytes : List Nat)
        (s3Ok : Bool) (v : Video),
      vid ≠ "" → getVideo cfg.db vid = some v → v.userID = u →
      ((handlerUploadVideoSimple cfg ⟨some vid, some u, some f⟩ bytes s3Ok).result =
        .error (.badRequest "File too large") ↔ f.size > MAX_UPLOAD_SIZE_VIDEO)) ∧
    (∀ (cfg : ApiConfig) (vid u : String) (f : FilePart) (bytes : List Nat)
        (probe : ProbeResult) (rex : Int) (rerr : String) (s3Ok : Bool) (v : Video),
      vid ≠ "" → getVideo cfg.db vid = some v → v.userID = u →
      ((handlerUploadVideo cfg ⟨some vid, some u, some f⟩ bytes probe rex rerr s3Ok).result =
        .error (.badRequest "File too large") ↔ f.size > MAX_UPLOAD_SIZE_VIDEO)) := by
  refine ⟨rfl, rfl, ?_, ?_, ?_, ?_⟩
  · intro cfg vid u f bytes hvid
    constructor
    · intro hres
      by_contra hgt
      push_neg at hgt
      unfold handlerUploadThumbnail at hres
      dsimp only at hres
      rw [if_neg hvid, if_neg (by omega)] at hres
      repeat' split at hres
      all_goals simp_all [errOutcome, unsupported_msg_ne]
    · intro hgt
      unfold handlerUploadThumbnail
      dsimp only
      rw [if_neg hvid, if_pos hgt]
      rfl
  · intro cfg vid u f hvid
    constructor
    · intro hres
      by_contra hgt
      push_neg at hgt
      unfold handlerUploadThumbnailMem at hres
      dsimp only at hres
      rw [if_neg hvid, if_neg (by omega)] at hres
      repeat' split at hres
      all_goals simp_all [errOutcome]
    · intro hgt
      unfold handlerUploadThumbnailMem
      dsimp only
      rw [if_neg hvid, if_pos hgt]
      rfl
  · intro cfg vid u f bytes s3Ok v hvid hv hvu
    constructor
    · intro hres
      by_contra hgt
      push_neg at hgt
      unfold handlerUploadVideoSimple at hres
      dsimp only at hres
      rw [if_neg hvid, hv] at hres
      dsimp only at hres
      rw [if_neg (by simp [hvu]), if_neg (by omega)] at hres
      repeat' split at hres
      all_goals simp_all [errOutcome, getVideoAspectRatio_not_badRequest,
        processVideoForFastStart_not_badRequest]
    · intro hgt
      unfold handlerUploadVideoSimple
      dsimp only
      rw [if_neg hvid, hv]
      dsimp only
      rw [if_neg (by simp [hvu]), if_pos hgt]
      rfl
  · intro cfg vid u f bytes probe rex rerr s3Ok v hvid hv hvu
    constructor
    · intro hres
      by_contra hgt
      push_neg at hgt
      unfold handlerUploadVideo at hres
      dsimp only at hres
      rw [if_neg hvid, hv] at hres
      dsimp only at hres
      rw [if_neg (by simp [hvu]), if_neg (by omega)] at hres
      repeat' split at hres
      all_goals simp_all [errOutcome, getVideoAspectRatio_not_badRequest,
        processVideoForFastStart_not_badRequest]
    · intro hgt
      unfold handlerUploadVideo
      dsimp only
      rw [if_neg hvid, hv]
      dsimp only
      rw [if_neg (by simp [hvu]), if_pos hgt]
      rfl

/-- C5 witness: an upload of exactly the cap size is not rejected for size,
one byte over is. -/
theorem claim5_size_caps_witness :
    ¬ ((handlerUploadThumbnail ⟨[], "sec", "assets", "8091", "bkt", "reg"⟩
        ⟨some "v1", some "u1", some ⟨10 * 2 ^ 20, "image/png"⟩⟩ []).result =
      .error (.badRequest "File too large")) ∧
    (handlerUploadThumbnail ⟨[], "sec", "assets", "8091", "bkt", "reg"⟩
        ⟨some "v1", some "u1", some ⟨10 * 2 ^ 20 + 1, "image/png"⟩⟩ []).result =
      .error (.badRequest "File too large") :=
  ⟨fun hres =>
    absurd ((claim5_size_caps.2.2.1 _ "v1" "u1" ⟨10 * 2 ^ 20, "image/png"⟩ []
      (by decide)).mp hres) (by decide),
   (claim5_size_caps.2.2.1 _ "v1" "u1" ⟨10 * 2 ^ 20 + 1, "image/png"⟩ []
      (by decide)).mpr (by decide)⟩


/-- Every transcoding-video-handler run either throws, with no update, no
deletion and an unchanged store, or succeeds, with a nonempty S3 put list and
exactly its local writes deleted. -/
theorem handlerUploadVideo_shape (cfg : ApiConfig) (req : UploadRequest)
    (bytes : List Nat) (probe : ProbeResult) (rex : Int) (rerr : String)
    (s3Ok : Bool) :
    ((∃ e, (handlerUploadVideo cfg req bytes probe rex rerr s3Ok).result = .error e) ∧
      (handlerUploadVideo cfg req bytes probe rex rerr s3Ok).updates = [] ∧
      (handlerUploadVideo cfg req bytes probe rex rerr s3Ok).deletes = [] ∧
      (handlerUploadVideo cfg req bytes probe rex rerr s3Ok).db = cfg.db) ∨
    ((∃ p, (handlerUploadVideo cfg req bytes probe rex rerr s3Ok).result = .ok p) ∧
      (handlerUploadVideo cfg req bytes probe rex rerr s3Ok).s3Puts ≠ [] ∧
      (handlerUploadVideo cfg req bytes probe rex rerr s3Ok).deletes =
        (handlerUploadVideo cfg req bytes probe rex rerr s3Ok).writes ∧
      (handlerUploadVideo cfg req bytes probe rex rerr s3Ok).deletes ≠ []) := by
  obtain ⟨rvid, rauth, rfile⟩ := req
  unfold handlerUploadVideo
  dsimp only
  repeat' split
  all_goals
    first
      | exact Or.inl ⟨⟨_, rfl⟩, rfl, rfl, rfl⟩
      | exact Or.inr ⟨⟨_, rfl⟩, by simp, rfl, by simp⟩

/-- Every simple-video-handler run either throws, with no update, no deletion
and an unchanged store, or succeeds, with a nonempty S3 put list and exactly
its local write deleted. -/
theorem handlerUploadVideoSimple_shape (cfg : ApiConfig) (req : UploadRequest)
    (bytes : List Nat) (s3Ok : Bool) :
    ((∃ e, (handlerUploadVideoSimple cfg req bytes s3Ok).result = .error e) ∧
      (handlerUploadVideoSimple cfg req bytes s3Ok).updates = [] ∧
      (handlerUploadVideoSimple cfg req bytes s3Ok).deletes = [] ∧
      (handlerUploadVideoSimple cfg req bytes s3Ok).db = cfg.db) ∨
    ((∃ p, (handlerUploadVideoSimple cfg req bytes s3Ok).result = .ok p) ∧
      (handlerUploadVideoSimple cfg req bytes s3Ok).s3Puts ≠ [] ∧
      (handlerUploadVideoSimple cfg req bytes s3Ok).deletes =
        (handlerUploadVideoSimple cfg req bytes s3Ok).writes ∧
      (handlerUploadVideoSimple cfg req bytes s3Ok).deletes ≠ []) := by
  obtain ⟨rvid, rauth, rfile⟩ := req
  unfold handlerUploadVideoSimple
  dsimp only
  repeat' split
  all_goals
    first
      | exact Or.inl ⟨⟨_, rfl⟩, rfl, rfl, rfl⟩
      | exact Or.inr ⟨⟨_, rfl⟩, by simp, rfl, by simp⟩

/-- Every disk-thumbnail-handler run deletes nothing, and either throws with no
update and an unchanged store, or succeeds. -/
theorem handlerUploadThumbnail_shape (cfg : ApiConfig) (req : UploadRequest)
    (bytes : List Nat) :
    (handlerUploadThumbnail cfg req bytes).deletes = [] ∧
    (((∃ e, (handlerUploadThumbnail cfg req bytes).result = .error e) ∧
      (handlerUploadThumbnail cfg req bytes).updates = [] ∧
      (handlerUploadThumbnail cfg req bytes).db = cfg.db) ∨
     (∃ p, (handlerUploadThumbnail cfg req bytes).result = .ok p)) := by
  obtain ⟨rvid, rauth, rfile⟩ := req
  unfold handlerUploadThumbnail
  dsimp only
  repeat' split
  all_goals
    first
      | exact ⟨rfl, Or.inl ⟨⟨_, rfl⟩, rfl, rfl⟩⟩
      | exact ⟨rfl, Or.inr ⟨_, rfl⟩⟩

/-- Every in-memory-thumbnail-handler run deletes nothing, and either throws
with no update and an unchanged store, or succeeds. -/
theorem handlerUploadThumbnailMem_shape (cfg : ApiConfig) (req : UploadRequest) :
    (handlerUploadThumbnailMem cfg req).deletes = [] ∧
    (((∃ e, (handlerUploadThumbnailMem cfg req).result = .error e) ∧
      (handlerUploadThumbnailMem cfg req).updates = [] ∧
      (handlerUploadThumbnailMem cfg req).db = cfg.db) ∨
     (∃ p, (handlerUploadThumbnailMem cfg req).result = .ok p)) := by
  obtain ⟨rvid, rauth, rfile⟩ := req
  unfold handlerUploadThumbnailMem
  dsimp only
  repeat' split
  all_goals
    first
      | exact ⟨rfl, Or.inl ⟨⟨_, rfl⟩, rfl, rfl⟩⟩
      | exact ⟨rfl, Or.inr ⟨_, rfl⟩⟩

/-- C6: error atomicity and no cleanup on failure.  For every request to any of
the upload handlers that throws, updateVideo is never called, the store is
unchanged, and no temporary-file deletion runs, so the local files written
before the failure stay on disk; in the video handlers a deletion happens only
on the success path, where exactly the written temp files are deleted after the
S3 upload. -/
theorem claim6_no_cleanup_on_error :
    (∀ (cfg : ApiConfig) (req : UploadRequest) (bytes : List Nat)
        (probe : ProbeResult) (rex : Int) (rerr : String) (s3Ok : Bool) (e : ApiError),
      (handlerUploadVideo cfg req bytes probe rex rerr s3Ok).result = .error e →
      (handlerUploadVideo cfg req bytes probe rex rerr s3Ok).updates = [] ∧
      (handlerUploadVideo cfg req bytes probe rex rerr s3Ok).deletes = [] ∧
      (handlerUploadVideo cfg req bytes probe rex rerr s3Ok).db = cfg.db) ∧
    (∀ (cfg : ApiConfig) (req : UploadRequest) (bytes : List Nat)
        (probe : ProbeResult) (rex : Int) (rerr : String) (s3Ok : Bool),
      (handlerUploadVideo cfg req bytes probe rex rerr s3Ok).deletes ≠ [] →
      (∃ p, (handlerUploadVideo cfg req bytes probe rex rerr s3Ok).result = .ok p) ∧
      (handlerUploadVideo cfg req bytes probe rex rerr s3Ok).s3Puts ≠ [] ∧
      (handlerUploadVideo cfg req bytes probe rex rerr s3Ok).deletes =
        (handlerUploadVideo cfg req bytes probe rex rerr s3Ok).writes) ∧
    (∀ (cfg : ApiConfig) (req : UploadRequest) (bytes : List Nat) (s3Ok : Bool)
        (e : ApiError),
      (handlerUploadVideoSimple cfg req bytes s3Ok).result = .error e →
      (handlerUploadVideoSimple cfg req bytes s3Ok).updates = [] ∧
      (handlerUploadVideoSimple cfg req bytes s3Ok).deletes = [] ∧
      (handlerUploadVideoSimple cfg req bytes s3Ok).db = cfg.db) ∧
    (∀ (cfg : ApiConfig) (req : UploadRequest) (bytes : List Nat) (e : ApiError),
      (handlerUploadThumbnail cfg req bytes).result = .error e →
      (handlerUploadThumbnail cfg req bytes).updates = [] ∧
      (handlerUploadThumbnail cfg req bytes).db = cfg.db ∧
      (handlerUploadThumbnail cfg req bytes).deletes = []) ∧
    (∀ (cfg : ApiConfig) (req : UploadRequest) (e : ApiError),
      (handlerUploadThumbnailMem cfg req).result = .error e →
      (handlerUploadThumbnailMem cfg req).updates = [] ∧
      (handlerUploadThumbnailMem cfg req).db = cfg.db ∧
      (handlerUploadThumbnailMem cfg req).deletes = []) := by
  refine ⟨?_, ?_, ?_, ?_, ?_⟩
  · intro cfg req bytes probe rex rerr s3Ok e hres
    rcases handlerUploadVideo_shape cfg req bytes probe rex rerr s3Ok with
      ⟨_, h1, h2, h3⟩ | ⟨⟨p, hok⟩, _⟩
    · exact ⟨h1, h2, h3⟩
    · rw [hres] at hok
      exact absurd hok (by simp)
  · intro cfg req bytes probe rex rerr s3Ok hdel
    rcases handlerUploadVideo_shape cfg req bytes probe rex rerr s3Ok with
      ⟨_, _, h2, _⟩ | ⟨hok, hs3, hdw, _⟩
    · exact absurd h2 hdel
    · exact ⟨hok, hs3, hdw⟩
  · intro cfg req bytes s3Ok e hres
    rcases handlerUploadVideoSimple_shape cfg req bytes s3Ok with
      ⟨_, h1, h2, h3⟩ | ⟨⟨p, hok⟩, _⟩
    · exact ⟨h1, h2, h3⟩
    · rw [hres] at hok
      exact absurd hok (by simp)
  · intro cfg req bytes e hres
    rcases handlerUploadThumbnail_shape cfg req bytes with
      ⟨hd, ⟨_, h1, h2⟩ | ⟨p, hok⟩⟩
    · exact ⟨h1, h2, hd⟩
    · rw [hres] at hok
      exact absurd hok (by simp)
  · intro cfg req e hres
    rcases handlerUploadThumbnailMem_shape cfg req with
      ⟨hd, ⟨_, h1, h2⟩ | ⟨p, hok⟩⟩
    · exact ⟨h1, h2, hd⟩
    · rw [hres] at hok
      exact absurd hok (by simp)

/-- C6 witness: a transcoding upload whose ffmpeg remux fails leaves both the
store untouched and the written temp file undeleted. -/
theorem claim6_no_cleanup_witness :
    (handlerUploadVideo
      ⟨[⟨"v1", "u1", "t", "d", "c", none, none⟩], "sec", "assets", "8091", "bkt", "reg"⟩
      ⟨some "v1", some "u1", some ⟨100, "video/mp4"⟩⟩ []
      ⟨0, "", [⟨some 1920, some 1080⟩]⟩ 1 "boom" true).updates = [] ∧
    (handlerUploadVideo
      ⟨[⟨"v1", "u1", "t", "d", "c", none, none⟩], "sec", "assets", "8091", "bkt", "reg"⟩
      ⟨some "v1", some "u1", some ⟨100, "video/mp4"⟩⟩ []
      ⟨0, "", [⟨some 1920, some 1080⟩]⟩ 1 "boom" true).deletes = [] ∧
    (handlerUploadVideo
      ⟨[⟨"v1", "u1", "t", "d", "c", none, none⟩], "sec", "assets", "8091", "bkt", "reg"⟩
      ⟨some "v1", some "u1", some ⟨100, "video/mp4"⟩⟩ []
      ⟨0, "", [⟨some 1920, some 1080⟩]⟩ 1 "boom" true).db =
      [⟨"v1", "u1", "t", "d", "c", none, none⟩] :=
  claim6_no_cleanup_on_error.1 _ _ [] _ 1 "boom" true
    (.jsError ("Failed to process video: " ++ "boom"))
    (by
      have hcl : classifyAspect 1920 1080 = "landscape" := by
        rw [classifyAspect_spec 1920 1080 (by norm_num)]
        decide
      have har : getVideoAspectRatio ⟨0, "", [⟨some 1920, some 1080⟩]⟩ =
          .ok "landscape" := by
        simp [getVideoAspectRatio, optFalsy, hcl]
      unfold handlerUploadVideo
      dsimp only
      rw [har]
      rfl)


/-- C7: success frame effect.  A valid disk-variant thumbnail upload changes
exactly the thumbnailURL field of its record, to a non-null URL string, leaves
id, owner, title, description, timestamp and videoURL unchanged, persists that
single-record update, and responds 200 with the record as re-read from the
store after the update; moreover every successful run of the handler responds
200 with its looked-up record changed only in thumbnailURL.  Symmetrically, a
valid transcoding video upload changes exactly the videoURL field. -/
theorem claim7_success_frame :
    (∀ (cfg : ApiConfig) (vid u : String) (f : FilePart) (bytes : List Nat) (v : Video),
      vid ≠ "" → f.size ≤ MAX_UPLOAD_SIZE_THUMB →
      f.type ∈ ["image/png", "image/jpeg"] →
      getVideo cfg.db vid = some v → v.userID = u →
      (handlerUploadThumbnail cfg ⟨some vid, some u, some f⟩ bytes).result = .ok (200, some { v with thumbnailURL := some ("http://localhost:8091/assets/" ++ base64urlEncode bytes ++ "." ++ (jsSplit f.type '/').getD 1 "undefined") }) ∧
      (handlerUploadThumbnail cfg ⟨some vid, some u, some f⟩ bytes).db = updateVideo cfg.db { v with thumbnailURL := some ("http://localhost:8091/assets/" ++ base64urlEncode bytes ++ "." ++ (jsSplit f.type '/').getD 1 "undefined") } ∧
      (handlerUploadThumbnail cfg ⟨some vid, some u, some f⟩ bytes).updates = [{ v with thumbnailURL := some ("http://localhost:8091/assets/" ++ base64urlEncode bytes ++ "." ++ (jsSplit f.type '/').getD 1 "undefined") }]) ∧
    (∀ (cfg : ApiConfig) (req : UploadRequest) (bytes : List Nat)
        (s : Nat) (b : Option Video),
      (handlerUploadThumbnail cfg req bytes).result = .ok (s, b) →
      s = 200 ∧ ∃ (vid : String) (v : Video) (url : String),
        req.videoId = some vid ∧ getVideo cfg.db vid = some v ∧
        b = some { v with thumbnailURL := some url }) ∧
    (∀ (cfg : ApiConfig) (vid u : String) (f : FilePart) (bytes : List Nat)
        (probe : ProbeResult) (rerr : String) (v : Video) (ar : String),
      vid ≠ "" → f.size ≤ MAX_UPLOAD_SIZE_VIDEO → f.type = "video/mp4" →
      getVideo cfg.db vid = some v → v.userID = u →
      getVideoAspectRatio probe = .ok ar →
      (handlerUploadVideo cfg ⟨some vid, some u, some f⟩ bytes probe 0 rerr true).result = .ok (200, some { v with videoURL := some ("https://" ++ cfg.s3Bucket ++ ".s3." ++ cfg.s3Region ++ ".amazonaws.com/" ++ (ar ++ "/" ++ (hexEncode bytes ++ ".mp4"))) }) ∧
      (handlerUploadVideo cfg ⟨some vid, some u, some f⟩ bytes probe 0 rerr true).updates = [{ v with videoURL := some ("https://" ++ cfg.s3Bucket ++ ".s3." ++ cfg.s3Region ++ ".amazonaws.com/" ++ (ar ++ "/" ++ (hexEncode bytes ++ ".mp4"))) }]) ∧
    (∀ (cfg : ApiConfig) (req : UploadRequest) (bytes : List Nat)
        (probe : ProbeResult) (rex : Int) (rerr : String) (s3Ok : Bool)
        (s : Nat) (b : Option Video),
      (handlerUploadVideo cfg req bytes probe rex rerr s3Ok).result = .ok (s, b) →
      s = 200 ∧ ∃ (vid : String) (v : Video) (url : String),
        req.videoId = some vid ∧ getVideo cfg.db vid = some v ∧
        b = some { v with videoURL := some url }) := by
  refine ⟨?_, ?_, ?_, ?_⟩
  · intro cfg vid u f bytes v hvid hsz hty hv hvu
    have hid : v.id = vid := getVideo_id_eq cfg.db vid v hv
    have hv2 : getVideo cfg.db v.id = some v := by rw [hid]; exact hv
    unfold handlerUploadThumbnail
    dsimp only
    rw [if_neg hvid, if_neg (by omega), if_neg (not_not_intro (by simpa using hty)), hv]
    dsimp only
    rw [if_neg (by simp [hvu])]
    refine ⟨?_, rfl, rfl⟩
    rw [getVideo_updateVideo cfg.db v.id v { v with thumbnailURL := some ("http://localhost:8091/assets/" ++ base64urlEncode bytes ++ "." ++ (jsSplit f.type '/').getD 1 "undefined") } hv2 rfl]
  · intro cfg req bytes s b hres
    obtain ⟨rvid, rauth, rfile⟩ := req
    rcases rvid with _ | vid
    · exact absurd hres (by simp [handlerUploadThumbnail, errOutcome])
    by_cases hvid : vid = ""
    · simp [handlerUploadThumbnail, hvid, errOutcome] at hres
    rcases rauth with _ | u
    · simp [handlerUploadThumbnail, hvid, errOutcome] at hres
    rcases rfile with _ | f
    · simp [handlerUploadThumbnail, hvid, errOutcome] at hres
    unfold handlerUploadThumbnail at hres
    dsimp only at hres
    rw [if_neg hvid] at hres
    by_cases hsz : f.size > MAX_UPLOAD_SIZE_THUMB
    · rw [if_pos hsz] at hres
      exact absurd hres (by simp [errOutcome])
    rw [if_neg hsz] at hres
    by_cases hty : ["image/png", "image/jpeg"].contains f.type = true
    case neg =>
      rw [if_pos hty] at hres
      exact absurd hres (by simp [errOutcome])
    rw [if_neg (not_not_intro hty)] at hres
    rcases hgv : getVideo cfg.db vid with _ | v
    · rw [hgv] at hres
      exact absurd hres (by simp [errOutcome])
    rw [hgv] at hres
    dsimp only at hres
    by_cases hown : v.userID ≠ u
    · rw [if_pos hown] at hres
      exact absurd hres (by simp [errOutcome])
    rw [if_neg hown] at hres
    dsimp only at hres
    simp only [Except.ok.injEq, Prod.mk.injEq] at hres
    obtain ⟨hs, hb⟩ := hres
    have hid : v.id = vid := getVideo_id_eq cfg.db vid v hgv
    have hv2 : getVideo cfg.db v.id = some v := by rw [hid]; exact hgv
    refine ⟨hs.symm, vid, v,
      "http://localhost:8091/assets/" ++ base64urlEncode bytes ++ "." ++
        (jsSplit f.type '/').getD 1 "undefined", rfl, hgv, ?_⟩
    rw [← hb]
    exact getVideo_updateVideo cfg.db v.id v _ hv2 rfl
  · intro cfg vid u f bytes probe rerr v ar hvid hsz hty hv hvu har
    have hid : v.id = vid := getVideo_id_eq cfg.db vid v hv
    have hv2 : getVideo cfg.db v.id = some v := by rw [hid]; exact hv
    unfold handlerUploadVideo
    dsimp only
    rw [if_neg hvid, hv]
    dsimp only
    rw [if_neg (by simp [hvu]), if_neg (by omega), if_neg (by simp [hty]), har]
    dsimp only [processVideoForFastStart]
    rw [if_neg (by simp : ¬((0:ℤ) ≠ 0))]
    dsimp only
    rw [if_neg (by simp : ¬¬(true = true))]
    refine ⟨?_, rfl⟩
    rw [← hid]
    rw [getVideo_updateVideo cfg.db v.id v { v with videoURL := some ("https://" ++ cfg.s3Bucket ++ ".s3." ++ cfg.s3Region ++ ".amazonaws.com/" ++ (ar ++ "/" ++ (hexEncode bytes ++ ".mp4"))) } hv2 rfl]
  · intro cfg req bytes probe rex rerr s3Ok s b hres
    obtain ⟨rvid, rauth, rfile⟩ := req
    rcases rvid with _ | vid
    · exact absurd hres (by simp [handlerUploadVideo, errOutcome])
    by_cases hvid : vid = ""
    · simp [handlerUploadVideo, hvid, errOutcome] at hres
    rcases rauth with _ | u
    · simp [handlerUploadVideo, hvid, errOutcome] at hres
    unfold handlerUploadVideo at hres
    dsimp only at hres
    rw [if_neg hvid] at hres
    rcases hgv : getVideo cfg.db vid with _ | v
    · rw [hgv] at hres
      exact absurd hres (by simp [errOutcome])
    rw [hgv] at hres
    dsimp only at hres
    by_cases hown : v.userID ≠ u
    · rw [if_pos hown] at hres
      exact absurd hres (by simp [errOutcome])
    rw [if_neg hown] at hres
    rcases rfile with _ | f
    · exact absurd hres (by simp [errOutcome])
    dsimp only at hres
    by_cases hsz : f.size > MAX_UPLOAD_SIZE_VIDEO
    · rw [if_pos hsz] at hres
      exact absurd hres (by simp [errOutcome])
    rw [if_neg hsz] at hres
    by_cases hty : f.type ≠ "video/mp4"
    · rw [if_pos hty] at hres
      exact absurd hres (by simp [errOutcome])
    rw [if_neg hty] at hres
    rcases har : getVideoAspectRatio probe with e | ar
    · rw [har] at hres
      exact absurd hres (by simp [errOutcome])
    rw [har] at hres
    dsimp only at hres
    rcases hpr : processVideoForFastStart rex rerr
        (cfg.assetsRoot ++ "/" ++ (hexEncode bytes ++ ".mp4")) with e | pfp
    · rw [hpr] at hres
      exact absurd hres (by simp [errOutcome])
    rw [hpr] at hres
    dsimp only at hres
    rcases s3Ok with _ | _
    · exact absurd hres (by simp [errOutcome])
    rw [if_neg (by simp : ¬¬(true = true))] at hres
    simp only [Except.ok.injEq, Prod.mk.injEq] at hres
    obtain ⟨hs, hb⟩ := hres
    have hid : v.id = vid := getVideo_id_eq cfg.db vid v hgv
    have hv2 : getVideo cfg.db vid = some v := hgv
    refine ⟨hs.symm, vid, v,
      "https://" ++ cfg.s3Bucket ++ ".s3." ++ cfg.s3Region ++ ".amazonaws.com/" ++
        (ar ++ "/" ++ (hexEncode bytes ++ ".mp4")), rfl, hgv, ?_⟩
    rw [← hb]
    exact getVideo_updateVideo cfg.db vid v _ hgv rfl

/-- C7 witness: a concrete valid thumbnail upload returns 200 with only the
thumbnailURL changed. -/
theorem claim7_success_frame_witness :
    (handlerUploadThumbnail
      ⟨[⟨"v1", "u1", "t", "d", "c", none, none⟩], "sec", "assets", "8091", "bkt", "reg"⟩
      ⟨some "v1", some "u1", some ⟨2048, "image/png"⟩⟩ (List.replicate 32 0)).result =
      .ok (200, some ⟨"v1", "u1", "t", "d", "c", some ("http://localhost:8091/assets/" ++ base64urlEncode (List.replicate 32 0) ++ "." ++ (jsSplit "image/png" '/').getD 1 "undefined"), none⟩) :=
  (claim7_success_frame.1
    ⟨[⟨"v1", "u1", "t", "d", "c", none, none⟩], "sec", "assets", "8091", "bkt", "reg"⟩
    "v1" "u1" ⟨2048, "image/png"⟩ (List.replicate 32 0)
    ⟨"v1", "u1", "t", "d", "c", none, none⟩
    (by decide) (by decide) (by decide) rfl rfl).1


/-- Hex encoding doubles the byte count. -/
theorem hexEncode_length (bs : List Nat) : (hexEncode bs).length = 2 * bs.length := by
  induction bs with
  | nil => rfl
  | cons b bs ih =>
    show (hexByte b ++ hexEncode bs).length = 2 * (b :: bs).length
    rw [String.length_append, ih]
    have hb : (hexByte b).length = 2 := rfl
    rw [hb]
    simp [Nat.mul_add, Nat.mul_comm]
    omega

/-- A zero-exit probe of a 1920 by 1080 stream classifies as landscape. -/
theorem probe_1920_1080_eval :
    getVideoAspectRatio ⟨0, "", [⟨some 1920, some 1080⟩]⟩ = .ok "landscape" := by
  have hcl : classifyAspect 1920 1080 = "landscape" := by
    rw [classifyAspect_spec 1920 1080 (by norm_num)]
    decide
  simp [getVideoAspectRatio, optFalsy, hcl]

/-- C8: the video storage key and the persisted URL agree.  In the transcoding
handler, the local temp file is hexEncode(bytes) ++ ".mp4" under the asset
root (32 random bytes hex-encode to 64 characters), the processed copy is
uploaded under the key aspectRatio/fileName tagged with the original declared
media type, and the persisted videoURL is exactly the bucket/region template
followed by that same key. -/
theorem claim8_key_url_agree :
    (∀ (cfg : ApiConfig) (vid u : String) (f : FilePart) (bytes : List Nat)
        (probe : ProbeResult) (rerr : String) (v : Video) (ar : String),
      vid ≠ "" → getVideo cfg.db vid = some v → v.userID = u →
      f.size ≤ MAX_UPLOAD_SIZE_VIDEO → f.type = "video/mp4" →
      getVideoAspectRatio probe = .ok ar →
      (handlerUploadVideo cfg ⟨some vid, some u, some f⟩ bytes probe 0 rerr true).writes =
        [cfg.assetsRoot ++ "/" ++ (hexEncode bytes ++ ".mp4"),
         cfg.assetsRoot ++ "/" ++ (hexEncode bytes ++ ".mp4") ++ ".processed"] ∧
      (handlerUploadVideo cfg ⟨some vid, some u, some f⟩ bytes probe 0 rerr true).s3Puts =
        [⟨ar ++ "/" ++ (hexEncode bytes ++ ".mp4"),
          cfg.assetsRoot ++ "/" ++ (hexEncode bytes ++ ".mp4") ++ ".processed", f.type⟩] ∧
      (handlerUploadVideo cfg ⟨some vid, some u, some f⟩ bytes probe 0 rerr true).updates =
        [{ v with videoURL := some ("https://" ++ cfg.s3Bucket ++ ".s3." ++ cfg.s3Region ++ ".amazonaws.com/" ++ (ar ++ "/" ++ (hexEncode bytes ++ ".mp4"))) }]) ∧
    (∀ bs : List Nat, bs.length = 32 → (hexEncode bs).length = 64) := by
  constructor
  · intro cfg vid u f bytes probe rerr v ar hvid hv hvu hsz hty har
    unfold handlerUploadVideo
    dsimp only
    rw [if_neg hvid, hv]
    dsimp only
    rw [if_neg (by simp [hvu]), if_neg (by omega), if_neg (by simp [hty]), har]
    dsimp only [processVideoForFastStart]
    rw [if_neg (by simp : ¬((0:ℤ) ≠ 0))]
    dsimp only
    rw [if_neg (by simp : ¬¬(true = true))]
    exact ⟨rfl, rfl, rfl⟩
  · intro bs hlen
    rw [hexEncode_length, hlen]

/-- C8 witness: a concrete landscape upload puts the processed file under
landscape/hexname.mp4 and persists the matching URL. -/
theorem claim8_key_url_agree_witness :
    (handlerUploadVideo
      ⟨[⟨"v1", "u1", "t", "d", "c", none, none⟩], "sec", "assets", "8091", "bkt", "reg"⟩
      ⟨some "v1", some "u1", some ⟨100, "video/mp4"⟩⟩ [18] ⟨0, "", [⟨some 1920, some 1080⟩]⟩ 0 "" true).s3Puts =
      [⟨"landscape" ++ "/" ++ (hexEncode [18] ++ ".mp4"),
        "assets" ++ "/" ++ (hexEncode [18] ++ ".mp4") ++ ".processed", "video/mp4"⟩] ∧
    (hexEncode (List.replicate 32 0)).length = 64 :=
  ⟨(claim8_key_url_agree.1
      ⟨[⟨"v1", "u1", "t", "d", "c", none, none⟩], "sec", "assets", "8091", "bkt", "reg"⟩
      "v1" "u1" ⟨100, "video/mp4"⟩ [18] ⟨0, "", [⟨some 1920, some 1080⟩]⟩ ""
      ⟨"v1", "u1", "t", "d", "c", none, none⟩ "landscape"
      (by decide) rfl rfl (by decide) rfl probe_1920_1080_eval).2.1,
   claim8_key_url_agree.2 (List.replicate 32 0) (by decide)⟩

/-- C9 counterexample: with the HTTP port configured as 9999, a successful
disk-variant thumbnail upload still persists a URL naming port 8091 — the
handler hardcodes http://localhost:8091 instead of using the configured
port. -/
theorem claim9_counterexample :
    (⟨[⟨"v1", "u1", "t", "d", "c", none, none⟩], "sec", "assets", "9999", "bkt", "reg"⟩ : ApiConfig).port = "9999" ∧
    (handlerUploadThumbnail
      ⟨[⟨"v1", "u1", "t", "d", "c", none, none⟩], "sec", "assets", "9999", "bkt", "reg"⟩
      ⟨some "v1", some "u1", some ⟨100, "image/png"⟩⟩ (List.replicate 32 0)).updates =
      [⟨"v1", "u1", "t", "d", "c", some "http://localhost:8091/assets/AAAAAAAAAAAAAAAAAAAAAAAAAAAAAAAAAAAAAAAAAAA.png", none⟩] :=
  ⟨rfl, by decide⟩

/-- C9 amended: the disk-variant thumbnail URL is
http://localhost:8091/assets/(name).(ext) with host and port hardcoded to
localhost:8091 regardless of the configured port, where the name is the
base64url encoding of the 32 random bytes and the extension is the declared
media subtype; the in-memory variant persists
http://localhost:(port)/api/thumbnails/(videoId) using the configured port. -/
theorem claim9_amended :
    (∀ (cfg : ApiConfig) (vid u : String) (f : FilePart) (bytes : List Nat) (v : Video),
      vid ≠ "" → f.size ≤ MAX_UPLOAD_SIZE_THUMB →
      f.type ∈ ["image/png", "image/jpeg"] →
      getVideo cfg.db vid = some v → v.userID = u →
      (handlerUploadThumbnail cfg ⟨some vid, some u, some f⟩ bytes).updates =
        [{ v with thumbnailURL := some ("http://localhost:8091/assets/" ++ base64urlEncode bytes ++ "." ++ (jsSplit f.type '/').getD 1 "undefined") }]) ∧
    (∀ (cfg : ApiConfig) (vid u : String) (f : FilePart) (v : Video),
      vid ≠ "" → f.size ≤ MAX_UPLOAD_SIZE_THUMB →
      getVideo cfg.db vid = some v → v.userID = u →
      (handlerUploadThumbnailMem cfg ⟨some vid, some u, some f⟩).updates =
        [{ v with thumbnailURL := some ("http://localhost:" ++ cfg.port ++ "/api/thumbnails/" ++ v.id) }]) ∧
    (jsSplit "image/png" '/').getD 1 "undefined" = "png" ∧
    (jsSplit "image/jpeg" '/').getD 1 "undefined" = "jpeg" := by
  refine ⟨?_, ?_, by decide, by decide⟩
  · intro cfg vid u f bytes v hvid hsz hty hv hvu
    unfold handlerUploadThumbnail
    dsimp only
    rw [if_neg hvid, if_neg (by omega), if_neg (not_not_intro (by simpa using hty)), hv]
    dsimp only
    rw [if_neg (by simp [hvu])]
  · intro cfg vid u f v hvid hsz hv hvu
    unfold handlerUploadThumbnailMem
    dsimp only
    rw [if_neg hvid, if_neg (by omega), hv]
    dsimp only
    rw [if_neg (by simp [hvu])]

/-- C9 amended witness: the amended URL shapes at concrete inputs, one per
variant. -/
theorem claim9_amended_witness :
    (handlerUploadThumbnail
      ⟨[⟨"v1", "u1", "t", "d", "c", none, none⟩], "sec", "assets", "9999", "bkt", "reg"⟩
      ⟨some "v1", some "u1", some ⟨100, "image/png"⟩⟩ (List.replicate 32 0)).updates =
      [⟨"v1", "u1", "t", "d", "c", some ("http://localhost:8091/assets/" ++ base64urlEncode (List.replicate 32 0) ++ "." ++ (jsSplit "image/png" '/').getD 1 "undefined"), none⟩] ∧
    (handlerUploadThumbnailMem
      ⟨[⟨"v1", "u1", "t", "d", "c", none, none⟩], "sec", "assets", "9999", "bkt", "reg"⟩
      ⟨some "v1", some "u1", some ⟨100, "image/gif"⟩⟩).updates =
      [⟨"v1", "u1", "t", "d", "c", some ("http://localhost:" ++ "9999" ++ "/api/thumbnails/" ++ "v1"), none⟩] :=
  ⟨claim9_amended.1
      ⟨[⟨"v1", "u1", "t", "d", "c", none, none⟩], "sec", "assets", "9999", "bkt", "reg"⟩
      "v1" "u1" ⟨100, "image/png"⟩ (List.replicate 32 0)
      ⟨"v1", "u1", "t", "d", "c", none, none⟩
      (by decide) (by decide) (by decide) rfl rfl,
   claim9_amended.2.1
      ⟨[⟨"v1", "u1", "t", "d", "c", none, none⟩], "sec", "assets", "9999", "bkt", "reg"⟩
      "v1" "u1" ⟨100, "image/gif"⟩
      ⟨"v1", "u1", "t", "d", "c", none, none⟩
      (by decide) (by decide) rfl rfl⟩

/-- C10: getVideoAspectRatio never divides by zero.  For a zero-exit probe: if
the first stream exists but its width or height is absent or zero, the
dimensions error is raised before the ratio is computed, and a classification
is only returned when both dimensions are present and nonzero; the access to
the first stream is unguarded, so an empty streams array raises a TypeError (an
unexpected exception distinct from the dimensions error). -/
theorem claim10_no_div_by_zero :
    ∀ (probe : ProbeResult), probe.exitCode = 0 →
      ((probe.streams = [] → getVideoAspectRatio probe = .error .jsTypeError) ∧
       (∀ (st : StreamDims) (rest : List StreamDims), probe.streams = st :: rest →
         ((st.width = none ∨ st.width = some 0 ∨ st.height = none ∨ st.height = some 0) →
           getVideoAspectRatio probe = .error (.jsError "Failed to get video dimensions")) ∧
         (∀ c, getVideoAspectRatio probe = .ok c →
           ∃ w h, st.width = some w ∧ st.height = some h ∧ 0 < w ∧ 0 < h)) ∧
       ApiError.jsTypeError ≠ ApiError.jsError "Failed to get video dimensions") := by
  intro probe h0
  obtain ⟨ec, et, streams⟩ := probe
  dsimp only at h0
  subst h0
  refine ⟨?_, ?_, by simp⟩
  · intro hnil
    subst hnil
    rfl
  · intro st rest hcons
    subst hcons
    constructor
    · intro hfalsy
      unfold getVideoAspectRatio
      dsimp only
      rw [if_neg (by simp : ¬((0:ℤ) ≠ 0))]
      rw [if_pos]
      rcases hfalsy with h | h | h | h <;> simp [optFalsy, h]
    · intro c hok
      unfold getVideoAspectRatio at hok
      dsimp only at hok
      rw [if_neg (by simp : ¬((0:ℤ) ≠ 0))] at hok
      by_cases hf : (optFalsy st.height || optFalsy st.width) = true
      · rw [if_pos hf] at hok
        exact absurd hok (by simp)
      · rw [if_neg hf] at hok
        rcases hw : st.width with _ | w <;> rcases hh : st.height with _ | h <;>
          rw [hw, hh] at hf <;> simp [optFalsy] at hf
        · exact ⟨w, h, rfl, rfl, Nat.pos_of_ne_zero hf.2, Nat.pos_of_ne_zero hf.1⟩

/-- C10 witness: instantiated at a zero-exit probe with an empty streams array
and at one whose first stream has zero height. -/
theorem claim10_no_div_by_zero_witness :
    getVideoAspectRatio ⟨0, "", []⟩ = .error .jsTypeError ∧
    getVideoAspectRatio ⟨0, "", [⟨some 1920, some 0⟩]⟩ =
      .error (.jsError "Failed to get video dimensions") :=
  ⟨(claim10_no_div_by_zero ⟨0, "", []⟩ rfl).1 rfl,
   ((claim10_no_div_by_zero ⟨0, "", [⟨some 1920, some 0⟩]⟩ rfl).2.1
      ⟨some 1920, some 0⟩ [] rfl).1 (by simp)⟩

end Tubely
